import Mathlib

/-
Verification of the `yuhan1212/ML-application` repository.

The repository contains four short scripts:
  * `PyTorch/tensor_shape.py`                 (tensor metadata demo, no logic)
  * `PyTorch_Lightning/datamodule.py`         (`MNIST` wrapper, `MNISTDataModule`)
  * `PyTorch_Lightning/lit_classifier.py`     (`Backbone`, `LitClassifier`)
  * `PyTorch_Lightning/train_step_proflier.py` (`ModelToProfile`)

The development below is a shallow embedding of those scripts.  External
library behaviour that the scripts rely on is modelled explicitly:

  * `torch.randperm` (used via `torch.utils.data.random_split` with the
    *global* default generator) is modelled by a pseudo-random shuffle
    driven by an explicit generator state, `randperm`.  The model keeps the
    two facts the scripts depend on: the result is a permutation of
    `range n`, and each call consumes and advances the generator state.
    The module's own `seed` field is *not* consulted, exactly as in
    `datamodule.py`, which never passes a generator to `random_split`.
  * `torch.utils.data.random_split` is translated line by line from its
    PyTorch 1.x source, including Python's negative-index slicing rules
    (`pySlice`), the running-sum offsets (`pyAccumulate`) and the
    `sum(lengths) != len(dataset)` check.
  * `torchvision.datasets.MNIST.__init__` download semantics
    (skip the download when the files already exist) is modelled by
    `torchvisionMNISTInit` over an explicit disk state.
  * `torch.utils.data.DataLoader` batching with `drop_last` is modelled by
    `DataLoader.batches`.
  * `torch.nn.Linear`, `relu`, `view` and `F.cross_entropy` are modelled
    on rational-valued tensors (real-valued for the loss), faithful to
    their mathematical definitions.
-/

deriving instance DecidableEq for Except

namespace MLApp

/-! ## Model of torch's global pseudo-random generator and `randperm`

`datamodule.py` calls `random_split` without a `generator` argument, so
torch draws from its mutable global generator.  We model the generator
state as a natural number advanced by a linear congruential step, and
`randperm` as a shuffle that consumes the state: element `n` is inserted
at a pseudo-random position of a permutation of `range n`. -/

def lcg (s : Nat) : Nat := (6364136223846793005 * s + 1442695040888963407) % 2 ^ 64

/-- Model of `torch.randperm n` reading and advancing the global generator. -/
def randperm : Nat → Nat → List Nat × Nat
  | 0, g => ([], g)
  | n + 1, g =>
    let r := randperm n g
    let g2 := lcg r.2
    (r.1.insertIdx (g2 / 2 ^ 32 % (n + 1)) n, g2)

/-! ## Python slicing and `itertools`-style running sums -/

/-- Effective bound of a Python slice index `i` on a sequence of length
`len`: negative indices count from the end and everything is clamped to
`[0, len]`. -/
def pyClamp (len : Nat) (i : Int) : Nat :=
  if i < 0 then ((len : Int) + i).toNat else min i.toNat len

/-- Python's `xs[start:stop]`. -/
def pySlice {α : Type} (xs : List α) (start stop : Int) : List α :=
  (xs.drop (pyClamp xs.length start)).take (pyClamp xs.length stop - pyClamp xs.length start)

/-- Python's `itertools.accumulate` (running sums), as used by
`torch.utils.data.random_split` to turn lengths into offsets. -/
def pyAccumulate (acc : Int) : List Int → List Int
  | [] => []
  | x :: xs => (acc + x) :: pyAccumulate (acc + x) xs

/-! ## `torch.utils.data.random_split` (PyTorch 1.x source)

```python
def random_split(dataset, lengths, generator=default_generator):
    if sum(lengths) != len(dataset):
        raise ValueError("Sum of input lengths does not equal the length of the input dataset!")
    indices = randperm(sum(lengths), generator=generator).tolist()
    return [Subset(dataset, indices[offset - length : offset])
            for offset, length in zip(_accumulate(lengths), lengths)]
```

A `Subset` is represented by its list of indices into the dataset. -/

def random_split (n : Nat) (lengths : List Int) (g : Nat) :
    Except String (List (List Nat)) × Nat :=
  if lengths.sum ≠ (n : Int) then
    (.error "Sum of input lengths does not equal the length of the input dataset!", g)
  else
    let r := randperm n g
    (.ok (((pyAccumulate 0 lengths).zip lengths).map fun p => pySlice r.1 (p.1 - p.2) p.1), r.2)

/-! ## `MNISTDataModule` (`datamodule.py`) -/

/-- The configuration stored by `MNISTDataModule.__init__`. -/
structure MNISTDataModule where
  data_dir : String := "Datasets"
  val_split : Int := 5000
  num_workers : Nat := 16
  normalize : Bool := false
  seed : Int := 42
  batch_size : Nat := 32

def MNISTDataModule.dims : Nat × Nat × Nat := (1, 28, 28)

def MNISTDataModule.num_classes : Nat := 10

/-- `MNISTDataModule.setup`:

```python
dataset = MNIST(self.data_dir, train=True, download=False, **extra)
train_length = len(dataset)
self.dataset_train, self.dataset_val = random_split(dataset, [train_length - self.val_split, self.val_split])
```

`train_length` is the size of the loaded MNIST training set (a parameter
of the model); `g` is the state of torch's global generator, which the
call consumes because no seeded generator is passed.  Note that `m.seed`
does not occur in the definition, exactly as in the source. -/
def MNISTDataModule.setup (m : MNISTDataModule) (train_length : Nat) (g : Nat) :
    Except String (List Nat × List Nat) × Nat :=
  match random_split train_length [(train_length : Int) - m.val_split, m.val_split] g with
  | (Except.ok [tr, va], g1) => (.ok (tr, va), g1)
  | (Except.ok _, g1) => (.error "cannot unpack", g1)
  | (Except.error e, g1) => (.error e, g1)

/-! ## The `MNIST` wrapper (`datamodule.py`, lines 51-64) and `prepare_data`

```python
def MNIST(*args, **kwargs):
    torchvision_mnist_available = not bool(os.getenv("PL_USE_MOCKED_MNIST", False))
    if torchvision_mnist_available:
        try:
            from torchvision.datasets import MNIST
            MNIST(_DATASETS_PATH, download=True)
        except HTTPError as e:
            print(f"Error {e} downloading `torchvision.datasets.MNIST`")
            torchvision_mnist_available = False
    if not torchvision_mnist_available:
        print("`torchvision.datasets.MNIST` not available. Using our hosted version")
        from tests.helpers.datasets import MNIST
    return MNIST(*args, **kwargs)
```

The try/except catches only `HTTPError`; the final constructor call is
outside the try.  We model the environment as: whether the
`PL_USE_MOCKED_MNIST` variable is set, what the network does when a
download is attempted, and which MNIST files are already on disk.
`torchvision.datasets.MNIST.__init__` downloads only when the files for
the requested split are absent and `download=True`, else raises. -/

/-- Which MNIST files are materialized in the datasets directory. -/
structure DiskState where
  trainFiles : Bool
  testFiles : Bool
deriving DecidableEq

/-- Outcome of attempting a network download. -/
inductive DownloadOutcome where
  | success
  | httpError (msg : String)
  | otherError (msg : String)
deriving DecidableEq

/-- A raised Python exception, distinguishing `urllib.error.HTTPError`
(the only class the wrapper catches) from everything else. -/
inductive PyErr where
  | http (msg : String)
  | other (msg : String)
deriving DecidableEq

/-- Which dataset implementation the wrapper ended up constructing. -/
inductive DatasetKind where
  | torchvision
  | mocked
deriving DecidableEq

def DiskState.present (s : DiskState) (train : Bool) : Bool :=
  if train then s.trainFiles else s.testFiles

def DiskState.setPresent (s : DiskState) (train : Bool) : DiskState :=
  if train then { s with trainFiles := true } else { s with testFiles := true }

/-- `torchvision.datasets.MNIST.__init__`: if the files for the requested
split already exist, nothing is downloaded; otherwise, with
`download=True` the files are fetched over the network (an `HTTPError` or
other failure propagates), and with `download=False` a `RuntimeError` is
raised.  The returned `Nat` counts downloads actually performed. -/
def torchvisionMNISTInit (s : DiskState) (train download : Bool) (net : DownloadOutcome) :
    Except PyErr (DiskState × Nat) :=
  if s.present train then .ok (s, 0)
  else if download then
    match net with
    | .success => .ok (s.setPresent train, 1)
    | .httpError m => .error (.http m)
    | .otherError m => .error (.other m)
  else .error (.other "Dataset not found. You can use download=True to download it")

/-- The module-level `MNIST` wrapper function of `datamodule.py`.
`mockedEnv` is whether `PL_USE_MOCKED_MNIST` is set.  The mocked dataset
(`tests.helpers.datasets.MNIST`) stores its files elsewhere and always
constructs successfully; its result carries no torchvision downloads. -/
def MNIST (mockedEnv : Bool) (net : DownloadOutcome) (s : DiskState) (train download : Bool) :
    Except PyErr (DatasetKind × DiskState × Nat) :=
  if mockedEnv then .ok (.mocked, s, 0)
  else
    match torchvisionMNISTInit s true true net with
    | .ok (s1, d1) =>
      match torchvisionMNISTInit s1 train download net with
      | .ok (s2, d2) => .ok (.torchvision, s2, d1 + d2)
      | .error e => .error e
    | .error (.http _) => .ok (.mocked, s, 0)
    | .error (.other m) => .error (.other m)

/-- `MNISTDataModule.prepare_data`:

```python
def prepare_data(self):
    MNIST(self.data_dir, train=True, download=True)
    MNIST(self.data_dir, train=False, download=True)
```

The result is the new disk state together with the number of torchvision
downloads performed by the call. -/
def MNISTDataModule.prepare_data (mockedEnv : Bool) (net : DownloadOutcome) (s : DiskState) :
    Except PyErr (DiskState × Nat) :=
  match MNIST mockedEnv net s true true with
  | .error e => .error e
  | .ok (_, s1, d1) =>
    match MNIST mockedEnv net s1 false true with
    | .error e => .error e
    | .ok (_, s2, d2) => .ok (s2, d1 + d2)

/-! ## `torch.utils.data.DataLoader` batching (`datamodule.py`, lines 124-160)

A loader iterates its dataset in sampler order (a fresh global-generator
permutation when `shuffle=True`, identity order otherwise) and yields
consecutive batches of `batch_size` examples; with `drop_last=True` a
final short batch is discarded. -/

structure DataLoaderCfg where
  batch_size : Nat
  shuffle : Bool
  num_workers : Nat
  drop_last : Bool
  pin_memory : Bool

/-- Shuffle a dataset by a fresh `randperm` over the global generator. -/
def permute {α : Type} (xs : List α) (g : Nat) : List α × Nat :=
  let r := randperm xs.length g
  (r.1.filterMap (fun i => xs[i]?), r.2)

/-- Consecutive batches of exactly `b` elements; a final short batch is
dropped (the `drop_last=True` behaviour). -/
def batchesOf {α : Type} (xs : List α) (b : Nat) : List (List α) :=
  if h : b = 0 ∨ xs.length < b then []
  else xs.take b :: batchesOf (xs.drop b) b
termination_by xs.length
decreasing_by
  push_neg at h
  simp only [List.length_drop]
  omega

/-- Consecutive batches of `b` elements keeping a final short batch (the
`drop_last=False` behaviour). -/
def chunksOf {α : Type} (xs : List α) (b : Nat) : List (List α) :=
  if h : b = 0 ∨ xs.length = 0 then []
  else xs.take b :: chunksOf (xs.drop b) b
termination_by xs.length
decreasing_by
  push_neg at h
  simp only [List.length_drop]
  omega

/-- One pass of a `DataLoader` over its dataset: the list of yielded
batches, plus the advanced global generator state. -/
def DataLoader.iterate {α : Type} (ds : List α) (cfg : DataLoaderCfg) (g : Nat) :
    List (List α) × Nat :=
  let o := if cfg.shuffle then permute ds g else (ds, g)
  ((if cfg.drop_last then batchesOf o.1 cfg.batch_size else chunksOf o.1 cfg.batch_size), o.2)

/-- `train_dataloader`: `DataLoader(self.dataset_train, batch_size=self.batch_size,
shuffle=True, num_workers=self.num_workers, drop_last=True, pin_memory=True)`. -/
def MNISTDataModule.train_dataloader {α : Type} (m : MNISTDataModule)
    (dataset_train : List α) (g : Nat) : List (List α) × Nat :=
  DataLoader.iterate dataset_train ⟨m.batch_size, true, m.num_workers, true, true⟩ g

/-- `val_dataloader`: same configuration but `shuffle=False`. -/
def MNISTDataModule.val_dataloader {α : Type} (m : MNISTDataModule)
    (dataset_val : List α) (g : Nat) : List (List α) × Nat :=
  DataLoader.iterate dataset_val ⟨m.batch_size, false, m.num_workers, true, true⟩ g

/-- `test_dataloader`: loads the test split, `shuffle=False`, `drop_last=True`. -/
def MNISTDataModule.test_dataloader {α : Type} (m : MNISTDataModule)
    (dataset_test : List α) (g : Nat) : List (List α) × Nat :=
  DataLoader.iterate dataset_test ⟨m.batch_size, false, m.num_workers, true, true⟩ g

/-! ## Tensors, `Backbone` and `LitClassifier` (`lit_classifier.py`)

Float tensors are modelled with exact rational entries: a shape and a
flattened data list.  `x.view(x.size(0), -1)`, `torch.nn.Linear`,
`torch.relu` and `F.cross_entropy` are modelled by their mathematical
definitions (the loss over the reals); shape mismatches, which raise in
torch, return errors. -/

structure Tensor where
  shape : List Nat
  data : List ℚ
deriving DecidableEq

def Tensor.numel (t : Tensor) : Nat := t.shape.prod

/-- The tensor invariant torch maintains: the buffer holds exactly
`prod(shape)` elements. -/
def Tensor.wf (t : Tensor) : Prop := t.data.length = t.shape.prod

/-- `x.view(x.size(0), -1)`: keep the leading dimension, flatten the rest. -/
def Tensor.view2 (t : Tensor) : Except String Tensor :=
  match t.shape with
  | [] => .error "dimension 0 out of range"
  | b :: _ =>
    if b = 0 ∨ t.numel % b ≠ 0 then .error "cannot infer the remaining dimension"
    else .ok ⟨[b, t.numel / b], t.data⟩

/-- `torch.relu`, elementwise. -/
def Tensor.relu (t : Tensor) : Tensor := ⟨t.shape, t.data.map (fun q => max q 0)⟩

/-- Split a flat buffer into `b` consecutive rows of `k` entries. -/
def chunkRows : List ℚ → Nat → Nat → List (List ℚ)
  | _, 0, _ => []
  | xs, b + 1, k => xs.take k :: chunkRows (xs.drop k) b k

/-- The rows of a 2-d tensor. -/
def Tensor.rows (t : Tensor) : List (List ℚ) :=
  match t.shape with
  | [b, k] => chunkRows t.data b k
  | _ => []

/-- The rows of a 2-d tensor, with entries cast to `ℝ` (for the loss). -/
def Tensor.toRealRows (t : Tensor) : List (List ℝ) :=
  t.rows.map (fun r => r.map (fun q : ℚ => (q : ℝ)))

def dot (xs ys : List ℚ) : ℚ := ((xs.zip ys).map fun p => p.1 * p.2).sum

/-- `torch.nn.Linear`: an affine map `x ↦ x Wᵀ + bias` with a weight
matrix of `out_features` rows of `in_features` entries. -/
structure Linear where
  in_features : Nat
  out_features : Nat
  weight : List (List ℚ)
  bias : List ℚ
deriving DecidableEq

def Linear.wf (l : Linear) : Prop :=
  l.weight.length = l.out_features ∧ l.bias.length = l.out_features ∧
    ∀ w ∈ l.weight, w.length = l.in_features

def Linear.applyRow (l : Linear) (row : List ℚ) : List ℚ :=
  (l.weight.zip l.bias).map fun p => dot p.1 row + p.2

/-- Apply a linear layer to a 2-d batch tensor; torch raises on a shape
mismatch. -/
def Linear.apply (l : Linear) (t : Tensor) : Except String Tensor :=
  match t.shape with
  | [b, k] =>
    if k = l.in_features then
      .ok ⟨[b, l.out_features], ((chunkRows t.data b k).map l.applyRow).flatten⟩
    else .error "mat1 and mat2 shapes cannot be multiplied"
  | _ => .error "linear expects a 2-d input"

/-- `Backbone.__init__(hidden_dim=128)` builds `l1 = Linear(28 * 28,
hidden_dim)` and `l2 = Linear(hidden_dim, 10)`; torch draws the initial
weight and bias entries at random, so they are parameters here. -/
structure Backbone where
  l1 : Linear
  l2 : Linear
deriving DecidableEq

def Backbone.init (hidden_dim : Nat) (w1 : List (List ℚ)) (b1 : List ℚ)
    (w2 : List (List ℚ)) (b2 : List ℚ) : Backbone :=
  ⟨⟨28 * 28, hidden_dim, w1, b1⟩, ⟨hidden_dim, 10, w2, b2⟩⟩

/-- `Backbone.forward`:

```python
x = x.view(x.size(0), -1)
x = torch.relu(self.l1(x))
x = torch.relu(self.l2(x))
return x
``` -/
def Backbone.forward (bb : Backbone) (x : Tensor) : Except String Tensor :=
  match x.view2 with
  | .error e => .error e
  | .ok x1 =>
    match bb.l1.apply x1 with
    | .error e => .error e
    | .ok x2 =>
      match bb.l2.apply x2.relu with
      | .error e => .error e
      | .ok x3 => .ok x3.relu

structure LitClassifier where
  backbone : Backbone
  learning_rate : ℚ
deriving DecidableEq

/-- `LitClassifier.__init__` (with an explicitly supplied backbone). -/
def LitClassifier.init (backbone : Backbone) (learning_rate : ℚ) : LitClassifier :=
  ⟨backbone, learning_rate⟩

/-- `LitClassifier.forward` delegates to the backbone. -/
def LitClassifier.forward (m : LitClassifier) (x : Tensor) : Except String Tensor :=
  m.backbone.forward x

/-- `F.cross_entropy(input, target)` with the default mean reduction:
the mean over the batch of `log(sum_j exp(input_ij)) - input_i,target_i`. -/
noncomputable def cross_entropy (input : List (List ℝ)) (target : List Nat) : ℝ :=
  let losses := (input.zip target).map fun p => Real.log ((p.1.map Real.exp).sum) - p.1.getD p.2 0
  losses.sum / losses.length

/-- What a Lightning step function hands back to the trainer: the
returned loss tensor, a returned prediction tensor, or Python's `None`
(a step body with no `return`). -/
inductive StepReturn where
  | retLoss (loss : ℝ)
  | retTensor (t : Tensor)
  | retNone

/-- A scalar metric emitted through `self.log`. -/
abbrev LogEntry := String × ℝ

/-- A step's full effect: the returned value, the module afterwards (its
parameters unchanged unless an optimizer ran), and the metric sink. -/
abbrev StepEffect (M : Type) := StepReturn × M × List LogEntry

/-- `LitClassifier.training_step`: computes the loss, logs `train_loss`,
returns the loss. -/
noncomputable def LitClassifier.training_step (m : LitClassifier) (logs : List LogEntry)
    (batch : Tensor × List Nat) (batch_idx : Nat) : Except String (StepEffect LitClassifier) :=
  match m.forward batch.1 with
  | .error e => .error e
  | .ok y_hat =>
    let loss := cross_entropy y_hat.toRealRows batch.2
    .ok (.retLoss loss, m, logs ++ [("train_loss", loss)])

/-- `LitClassifier.validation_step`: computes and logs `valid_loss`; the
body has no `return`, so the step returns `None`. -/
noncomputable def LitClassifier.validation_step (m : LitClassifier) (logs : List LogEntry)
    (batch : Tensor × List Nat) (batch_idx : Nat) : Except String (StepEffect LitClassifier) :=
  match m.forward batch.1 with
  | .error e => .error e
  | .ok y_hat =>
    let loss := cross_entropy y_hat.toRealRows batch.2
    .ok (.retNone, m, logs ++ [("valid_loss", loss)])

/-- `LitClassifier.test_step`: computes and logs `test_loss`; returns `None`. -/
noncomputable def LitClassifier.test_step (m : LitClassifier) (logs : List LogEntry)
    (batch : Tensor × List Nat) (batch_idx : Nat) : Except String (StepEffect LitClassifier) :=
  match m.forward batch.1 with
  | .error e => .error e
  | .ok y_hat =>
    let loss := cross_entropy y_hat.toRealRows batch.2
    .ok (.retNone, m, logs ++ [("test_loss", loss)])

/-- `LitClassifier.predict_step`: `x, y = batch; return self(x)`. -/
def LitClassifier.predict_step (m : LitClassifier) (logs : List LogEntry)
    (batch : Tensor × List Nat) (batch_idx : Nat) : Except String (StepEffect LitClassifier) :=
  match m.forward batch.1 with
  | .error e => .error e
  | .ok y_hat => .ok (.retTensor y_hat, m, logs)

/-! ## `ModelToProfile` (`train_step_proflier.py`)

`self.model` is an external torchvision resnet; it is modelled as an
abstract parameter vector together with an abstract forward function.
`self.criterion = torch.nn.CrossEntropyLoss()` is the same mean
cross-entropy as `F.cross_entropy`.  `__init__` rebinds
`self.training_step` to one of the two implementations according to the
`automatic_optimization` flag. -/

structure ModelToProfile where
  name : String
  params : List ℝ
  modelFn : List ℝ → Tensor → Except String Tensor
  automatic_optimization : Bool

/-- The automatic-optimization training step: computes the loss, logs
`train_loss`, returns the loss; the optimizer runs externally. -/
noncomputable def ModelToProfile.automatic_optimization_training_step (m : ModelToProfile)
    (logs : List LogEntry) (batch : Tensor × List Nat) (batch_idx : Nat) :
    Except String (StepEffect ModelToProfile) :=
  match m.modelFn m.params batch.1 with
  | .error e => .error e
  | .ok outputs =>
    let loss := cross_entropy outputs.toRealRows batch.2
    .ok (.retLoss loss, m, logs ++ [("train_loss", loss)])

/-- The manual-optimization training step: `opt.zero_grad()`, forward,
loss, log, `manual_backward`, `opt.step()` — the external optimizer
(abstracted as `opt`) updates the parameters, and the body has no
`return`, so the step returns `None`. -/
noncomputable def ModelToProfile.manual_optimization_training_step (m : ModelToProfile)
    (opt : List ℝ → List ℝ) (logs : List LogEntry) (batch : Tensor × List Nat)
    (batch_idx : Nat) : Except String (StepEffect ModelToProfile) :=
  match m.modelFn m.params batch.1 with
  | .error e => .error e
  | .ok outputs =>
    let loss := cross_entropy outputs.toRealRows batch.2
    .ok (.retNone, { m with params := opt m.params }, logs ++ [("train_loss", loss)])

/-- The `training_step` attribute as rebound in `__init__`:

```python
self.training_step = (
    self.automatic_optimization_training_step
    if automatic_optimization
    else self.manual_optimization_training_step
)
``` -/
noncomputable def ModelToProfile.training_step (m : ModelToProfile) (opt : List ℝ → List ℝ)
    (logs : List LogEntry) (batch : Tensor × List Nat) (batch_idx : Nat) :
    Except String (StepEffect ModelToProfile) :=
  if m.automatic_optimization then m.automatic_optimization_training_step logs batch batch_idx
  else m.manual_optimization_training_step opt logs batch batch_idx

/-- `ModelToProfile.validation_step`: computes and logs `val_loss`;
returns `None`. -/
noncomputable def ModelToProfile.validation_step (m : ModelToProfile) (logs : List LogEntry)
    (batch : Tensor × List Nat) (batch_idx : Nat) : Except String (StepEffect ModelToProfile) :=
  match m.modelFn m.params batch.1 with
  | .error e => .error e
  | .ok outputs =>
    let loss := cross_entropy outputs.toRealRows batch.2
    .ok (.retNone, m, logs ++ [("val_loss", loss)])

/-- `ModelToProfile.predict_step`: `inputs = batch[0]; return self.model(inputs)`. -/
def ModelToProfile.predict_step (m : ModelToProfile) (logs : List LogEntry)
    (batch : Tensor × List Nat) (batch_idx : Nat) : Except String (StepEffect ModelToProfile) :=
  match m.modelFn m.params batch.1 with
  | .error e => .error e
  | .ok outputs => .ok (.retTensor outputs, m, logs)

/-- A concrete all-zero classifier (hidden dimension 1) used to witness
the step-function claims on explicit inputs. -/
def zeroClassifier : LitClassifier :=
  LitClassifier.init
    (Backbone.init 1 [List.replicate 784 0] [0] (List.replicate 10 [0]) (List.replicate 10 0))
    (1 / 10000)

/-- A concrete all-zero input batch tensor of shape `(1, 1, 28, 28)`. -/
def zeroInput : Tensor := ⟨[1, 1, 28, 28], List.replicate 784 0⟩

/-- A concrete profiler model whose abstract resnet returns a fixed
`(1, 10)` zero tensor, configured for manual optimization. -/
def manualProfileModel : ModelToProfile :=
  ⟨"resnet18", [], fun _ _ => .ok ⟨[1, 10], List.replicate 10 0⟩, false⟩

/-- The tensor `zeroClassifier.forward zeroInput` evaluates to (the
normal form produced by `Backbone.forward`). -/
def zeroForwardOutput : Tensor :=
  Tensor.relu ⟨[1, 10],
    ((chunkRows (Tensor.relu ⟨[1, 1],
        ((chunkRows (List.replicate 784 0) 1 784).map
          (Linear.mk (28 * 28) 1 [List.replicate 784 0] [0]).applyRow).flatten⟩).data
      1 1).map (Linear.mk 1 10 (List.replicate 10 [0]) (List.replicate 10 0)).applyRow).flatten⟩

/-! ## The shuffle model is a permutation -/

theorem randperm_perm (n g : Nat) : ((randperm n g).1).Perm (List.range n) := by
  induction n generalizing g with
  | zero => simp [randperm]
  | succ n ih =>
    have hlen : ((randperm n g).1).length = n := ((ih g).length_eq).trans (List.length_range n)
    have h1 : ((randperm (n + 1) g).1).Perm (n :: (randperm n g).1) := by
      simpa [randperm] using
        List.perm_insertIdx n ((randperm n g).1)
          (by
            rw [hlen]
            exact Nat.lt_succ_iff.mp (Nat.mod_lt _ (Nat.succ_pos n)))
    have h2 : (n :: (randperm n g).1).Perm (n :: List.range n) := (ih g).cons n
    have h3 : (n :: List.range n).Perm (List.range (n + 1)) := by
      rw [List.range_succ]
      exact (List.perm_append_singleton n (List.range n)).symm
    exact (h1.trans h2).trans h3

theorem randperm_length (n g : Nat) : ((randperm n g).1).length = n :=
  ((randperm_perm n g).length_eq).trans (List.length_range n)

theorem randperm_nodup (n g : Nat) : ((randperm n g).1).Nodup :=
  ((randperm_perm n g).nodup_iff).mpr (List.nodup_range n)

/-! ## Normal form of `random_split` on a two-element length list -/

theorem pyClamp_ofNat (len : Nat) (i : Int) (h0 : 0 ≤ i) :
    pyClamp len i = min i.toNat len := by
  simp [pyClamp, not_lt.mpr h0]

theorem random_split_two (n : Nat) (v : Int) (g : Nat) (h0 : 0 ≤ v) (hn : v ≤ (n : Int)) :
    random_split n [(n : Int) - v, v] g =
      (Except.ok [((randperm n g).1).take (n - v.toNat), ((randperm n g).1).drop (n - v.toNat)],
        (randperm n g).2) := by
  have hsum : ([(n : Int) - v, v]).sum = (n : Int) := by simp
  have hperm_len : ((randperm n g).1).length = n := randperm_length n g
  have hk0 : pyClamp n ((n : Int) - v - ((n : Int) - v)) = 0 := by
    rw [sub_self]
    simp [pyClamp_ofNat n 0 le_rfl]
  have hkv : ((n : Int) - v).toNat = n - v.toNat := by omega
  have hk : pyClamp n ((n : Int) - v) = n - v.toNat := by
    rw [pyClamp_ofNat n _ (by omega), hkv]
    omega
  have hn' : pyClamp n ((n : Int)) = n := by
    rw [pyClamp_ofNat n _ (by omega)]
    simp
  have e1 : pySlice (randperm n g).1 (0 + ((n : Int) - v) - ((n : Int) - v)) (0 + ((n : Int) - v))
      = ((randperm n g).1).take (n - v.toNat) := by
    unfold pySlice
    rw [hperm_len]
    rw [(by ring : (0 : Int) + ((n : Int) - v) - ((n : Int) - v) = (n : Int) - v - ((n : Int) - v))]
    rw [(by ring : (0 : Int) + ((n : Int) - v) = (n : Int) - v)]
    rw [hk0, hk]
    simp
  have e2 : pySlice (randperm n g).1 (0 + ((n : Int) - v) + v - v) (0 + ((n : Int) - v) + v)
      = ((randperm n g).1).drop (n - v.toNat) := by
    unfold pySlice
    rw [hperm_len]
    rw [(by ring : (0 : Int) + ((n : Int) - v) + v - v = (n : Int) - v)]
    rw [(by ring : (0 : Int) + ((n : Int) - v) + v = (n : Int))]
    rw [hk, hn']
    exact List.take_of_length_le (by simp [hperm_len])
  unfold random_split
  rw [if_neg (by simp)]
  simp only [pyAccumulate, List.zip, List.zipWith, List.map]
  rw [e1, e2]

theorem setup_two_subsets (m : MNISTDataModule) (n g : Nat)
    (h0 : 0 ≤ m.val_split) (hn : m.val_split ≤ (n : Int)) :
    m.setup n g =
      (Except.ok (((randperm n g).1).take (n - m.val_split.toNat),
          ((randperm n g).1).drop (n - m.val_split.toNat)),
        (randperm n g).2) := by
  unfold MNISTDataModule.setup
  rw [random_split_two n m.val_split g h0 hn]

/-- Claim C1: the spec requires that re-invoking `setup` with the same stored
seed reproduces an identical train/validation partition.  The code violates
this: `setup` never consults `m.seed` (first conjunct: the result is
invariant under changing the seed to anything), and the partition instead
depends on torch's ambient global generator, which each call advances — two
successive calls of `setup` on the very same module (seed 42, `val_split`
1, dataset size 4) return different partitions (second conjunct). -/
theorem setup_not_seed_deterministic :
    (∀ (m : MNISTDataModule) (s : Int) (n g : Nat),
        MNISTDataModule.setup { m with seed := s } n g = m.setup n g) ∧
    ((MNISTDataModule.setup { val_split := 1, seed := 42 } 4 0).1 ≠
      (MNISTDataModule.setup { val_split := 1, seed := 42 } 4
        (MNISTDataModule.setup { val_split := 1, seed := 42 } 4 0).2).1) := by
  constructor
  · intro m s n g
    rfl
  · decide

/-- Claim C2: for `0 ≤ val_split ≤ n`, `setup` splits the `n`-element
training dataset into two subsets whose sizes sum to `n` and whose index
lists share no element. -/
theorem setup_exact_partition (m : MNISTDataModule) (n g : Nat)
    (h0 : 0 ≤ m.val_split) (hn : m.val_split ≤ (n : Int)) :
    ∃ tr va, (m.setup n g).1 = Except.ok (tr, va) ∧
      tr.length + va.length = n ∧ tr.Disjoint va := by
  refine ⟨_, _, by rw [setup_two_subsets m n g h0 hn], ?_, ?_⟩
  · rw [List.length_take, List.length_drop, randperm_length]
    omega
  · exact List.disjoint_take_drop (randperm_nodup n g) le_rfl

/-- Witness for C2 at `val_split = 1`, dataset size 4, generator state 0. -/
theorem setup_exact_partition_witness :
    ∃ tr va, ((MNISTDataModule.setup { val_split := 1 } 4 0)).1 = Except.ok (tr, va) ∧
      tr.length + va.length = 4 ∧ tr.Disjoint va :=
  setup_exact_partition { val_split := 1 } 4 0 (by decide) (by decide)

/-- Claim C4: the spec requires a configuration error when `val_split`
exceeds the dataset size.  The code performs no such validation: with a
dataset of size 2 and `val_split = 3`, `setup` raises nothing — the
`sum(lengths) != len(dataset)` check inside `random_split` passes because
`(2 - 3) + 3 = 2` — and Python's negative-index slicing silently yields a
validation subset of size 1 instead of the requested 3. -/
theorem setup_oversized_val_split_no_error :
    ∃ tr va, (MNISTDataModule.setup { val_split := 3 } 2 0).1 = Except.ok (tr, va) ∧
      va.length = 1 ∧ tr.length = 1 :=
  ⟨[0], [1], by decide, rfl, rfl⟩

/-- Claim C3: the single try/except in the repository sits around the
torchvision MNIST download probe inside the `MNIST` wrapper and catches
only `HTTPError`.  When the probe's download raises `HTTPError`, the
wrapper substitutes the mocked dataset implementation and returns a
dataset successfully; any other download failure propagates unhandled. -/
theorem MNIST_http_error_falls_back_to_mocked (msg : String) (s : DiskState)
    (train download : Bool) (h : s.trainFiles = false) :
    MNIST false (.httpError msg) s train download = Except.ok (.mocked, s, 0) ∧
    MNIST false (.otherError msg) s train download = Except.error (.other msg) := by
  constructor <;> simp [MNIST, torchvisionMNISTInit, DiskState.present, h]

/-- Witness for C3: a 404 during the download probe on an empty datasets
directory yields the mocked dataset; a non-HTTP failure propagates. -/
theorem MNIST_http_error_falls_back_to_mocked_witness :
    MNIST false (.httpError "404") ⟨false, false⟩ true true = Except.ok (.mocked, ⟨false, false⟩, 0) ∧
    MNIST false (.otherError "404") ⟨false, false⟩ true true = Except.error (.other "404") :=
  MNIST_http_error_falls_back_to_mocked "404" ⟨false, false⟩ true true rfl

/-- Claim C9: `prepare_data` is idempotent.  If a first call (with the
network up) succeeded, leaving disk state `s1`, then a second call
performs zero downloads, raises no error, and leaves the disk state at
exactly `s1`. -/
theorem prepare_data_idempotent (mockedEnv : Bool) (s s1 : DiskState) (d1 : Nat)
    (h : MNISTDataModule.prepare_data mockedEnv .success s = Except.ok (s1, d1)) :
    MNISTDataModule.prepare_data mockedEnv .success s1 = Except.ok (s1, 0) := by
  rcases s with ⟨tf, te⟩
  cases mockedEnv <;> cases tf <;> cases te <;>
    · simp only [MNISTDataModule.prepare_data, MNIST, torchvisionMNISTInit, DiskState.present,
        DiskState.setPresent, Except.ok.injEq, Prod.mk.injEq] at h
      obtain ⟨rfl, rfl⟩ := h
      decide

/-- Witness for C9: starting from an empty datasets directory, the first
call downloads both splits; the second call downloads nothing and leaves
the state unchanged. -/
theorem prepare_data_idempotent_witness :
    MNISTDataModule.prepare_data false .success ⟨false, false⟩ = Except.ok (⟨true, true⟩, 2) ∧
    MNISTDataModule.prepare_data false .success ⟨true, true⟩ = Except.ok (⟨true, true⟩, 0) :=
  ⟨by decide, prepare_data_idempotent false ⟨false, false⟩ ⟨true, true⟩ 2 (by decide)⟩

/-! ## Batching lemmas -/

theorem permute_length {α : Type} (xs : List α) (g : Nat) :
    (permute xs g).1.length = xs.length := by
  have key : ∀ is : List Nat, (∀ i ∈ is, i < xs.length) →
      (is.filterMap (fun i => xs[i]?)).length = is.length := by
    intro is
    induction is with
    | nil => intro _; rfl
    | cons i is ih =>
      intro h
      have hi : i < xs.length := h i (List.mem_cons_self i is)
      simp only [List.filterMap_cons, List.getElem?_eq_getElem hi, List.length_cons]
      rw [ih fun j hj => h j (List.mem_cons_of_mem i hj)]
  have hmem : ∀ i ∈ (randperm xs.length g).1, i < xs.length := fun i hi =>
    List.mem_range.mp ((randperm_perm xs.length g).subset hi)
  simpa [permute] using (key _ hmem).trans (randperm_length xs.length g)

theorem batchesOf_mem_length {α : Type} (b : Nat) (hb : 1 ≤ b) :
    ∀ (xs : List α), ∀ c ∈ batchesOf xs b, c.length = b := by
  have H : ∀ (n : Nat) (xs : List α), xs.length = n → ∀ c ∈ batchesOf xs b, c.length = b := by
    intro n
    induction n using Nat.strong_induction_on with
    | _ n ih =>
      intro xs hxs c hc
      rw [batchesOf] at hc
      by_cases hcase : b = 0 ∨ xs.length < b
      · simp [hcase] at hc
      · rw [dif_neg hcase] at hc
        push_neg at hcase
        rcases List.mem_cons.mp hc with rfl | hc
        · simp only [List.length_take]
          omega
        · exact ih ((xs.drop b).length) (by simp; omega) _ rfl c hc
  exact fun xs => H xs.length xs rfl

theorem batchesOf_short {α : Type} (xs : List α) (b : Nat) (h : xs.length < b) :
    batchesOf xs b = [] := by
  rw [batchesOf, dif_pos (Or.inr h)]

theorem batchesOf_flatten_length {α : Type} (b : Nat) :
    ∀ (xs : List α), (batchesOf xs b).flatten.length = b * (xs.length / b) := by
  have H : ∀ (n : Nat) (xs : List α), xs.length = n →
      (batchesOf xs b).flatten.length = b * (xs.length / b) := by
    intro n
    induction n using Nat.strong_induction_on with
    | _ n ih =>
      intro xs hxs
      rw [batchesOf]
      by_cases hcase : b = 0 ∨ xs.length < b
      · rcases hcase with h0 | hlt
        · simp [h0]
        · rw [dif_pos (Or.inr hlt)]
          simp [Nat.div_eq_of_lt hlt]
      · rw [dif_neg hcase]
        push_neg at hcase
        have hb : 0 < b := Nat.pos_of_ne_zero hcase.1
        have hble : b ≤ xs.length := hcase.2
        have hdrop := ih ((xs.drop b).length) (by simp; omega) (xs.drop b) rfl
        simp only [List.flatten_cons, List.length_append, hdrop, List.length_take,
          List.length_drop]
        rw [Nat.div_eq_sub_div hb hble]
        have : min b xs.length = b := by omega
        rw [this]
        ring
  exact fun xs => H xs.length xs rfl

/-- Claim C10: all three of `MNISTDataModule`'s dataloaders are built with
`drop_last=True`, so (for a positive `batch_size`) every yielded batch
holds exactly `batch_size` examples; a split smaller than `batch_size`
yields no batches at all; and whenever `batch_size` does not divide the
split size, strictly fewer examples than the split holds are seen in one
pass — some examples are omitted even though `setup`'s split itself is an
exact partition. -/
theorem dataloaders_drop_last {α : Type} (m : MNISTDataModule) (tr va te : List α) (g : Nat)
    (hb : 1 ≤ m.batch_size) :
    (∀ c ∈ (m.train_dataloader tr g).1, c.length = m.batch_size) ∧
    (∀ c ∈ (m.val_dataloader va g).1, c.length = m.batch_size) ∧
    (∀ c ∈ (m.test_dataloader te g).1, c.length = m.batch_size) ∧
    (tr.length < m.batch_size → (m.train_dataloader tr g).1 = []) ∧
    (va.length < m.batch_size → (m.val_dataloader va g).1 = []) ∧
    (te.length < m.batch_size → (m.test_dataloader te g).1 = []) ∧
    (¬ m.batch_size ∣ tr.length → ((m.train_dataloader tr g).1.flatten).length < tr.length) ∧
    (¬ m.batch_size ∣ va.length → ((m.val_dataloader va g).1.flatten).length < va.length) := by
  have hptr : (permute tr g).1.length = tr.length := permute_length tr g
  refine ⟨?_, ?_, ?_, ?_, ?_, ?_, ?_, ?_⟩
  · intro c hc
    exact batchesOf_mem_length m.batch_size hb _ c
      (by simpa [MNISTDataModule.train_dataloader, DataLoader.iterate] using hc)
  · intro c hc
    exact batchesOf_mem_length m.batch_size hb _ c
      (by simpa [MNISTDataModule.val_dataloader, DataLoader.iterate] using hc)
  · intro c hc
    exact batchesOf_mem_length m.batch_size hb _ c
      (by simpa [MNISTDataModule.test_dataloader, DataLoader.iterate] using hc)
  · intro h
    simpa [MNISTDataModule.train_dataloader, DataLoader.iterate] using
      batchesOf_short (permute tr g).1 m.batch_size (by omega)
  · intro h
    simpa [MNISTDataModule.val_dataloader, DataLoader.iterate] using
      batchesOf_short va m.batch_size h
  · intro h
    simpa [MNISTDataModule.test_dataloader, DataLoader.iterate] using
      batchesOf_short te m.batch_size h
  · intro h
    have hfl := batchesOf_flatten_length m.batch_size (permute tr g).1
    simp only [hptr] at hfl
    simp only [MNISTDataModule.train_dataloader, DataLoader.iterate, if_true, hfl]
    have hle : m.batch_size * (tr.length / m.batch_size) ≤ tr.length := by
      rw [Nat.mul_comm]
      exact Nat.div_mul_le_self tr.length m.batch_size
    exact lt_of_le_of_ne hle fun heq => h ⟨tr.length / m.batch_size, heq.symm⟩
  · intro h
    have hfl := batchesOf_flatten_length m.batch_size va
    simp only [MNISTDataModule.val_dataloader, DataLoader.iterate]
    norm_num [hfl]
    have hle : m.batch_size * (va.length / m.batch_size) ≤ va.length := by
      rw [Nat.mul_comm]
      exact Nat.div_mul_le_self va.length m.batch_size
    exact lt_of_le_of_ne hle fun heq => h ⟨va.length / m.batch_size, heq.symm⟩

/-- Witness for C10: `batch_size = 2` on splits of sizes 3, 1 and 4. -/
theorem dataloaders_drop_last_witness :
    (∀ c ∈ (MNISTDataModule.train_dataloader { batch_size := 2 } [0, 1, 2] 0).1, c.length = 2) ∧
    (∀ c ∈ (MNISTDataModule.val_dataloader { batch_size := 2 } [0] 0).1, c.length = 2) ∧
    (∀ c ∈ (MNISTDataModule.test_dataloader { batch_size := 2 } [0, 1, 2, 3] 0).1, c.length = 2) ∧
    (([0, 1, 2] : List Nat).length < 2 →
      (MNISTDataModule.train_dataloader { batch_size := 2 } [0, 1, 2] 0).1 = []) ∧
    (([0] : List Nat).length < 2 →
      (MNISTDataModule.val_dataloader { batch_size := 2 } [0] 0).1 = []) ∧
    (([0, 1, 2, 3] : List Nat).length < 2 →
      (MNISTDataModule.test_dataloader { batch_size := 2 } [0, 1, 2, 3] 0).1 = []) ∧
    (¬ 2 ∣ ([0, 1, 2] : List Nat).length →
      ((MNISTDataModule.train_dataloader { batch_size := 2 } [0, 1, 2] 0).1.flatten).length < 3) ∧
    (¬ 2 ∣ ([0] : List Nat).length →
      ((MNISTDataModule.val_dataloader { batch_size := 2 } [0] 0).1.flatten).length < 1) :=
  dataloaders_drop_last { batch_size := 2 } [0, 1, 2] [0] [0, 1, 2, 3] 0 (by decide)

/-! ## Shape propagation through `Backbone.forward` -/

theorem relu_shape (t : Tensor) : t.relu.shape = t.shape := rfl

theorem view2_batch (b : Nat) (d : List ℚ) (hb : 1 ≤ b) :
    Tensor.view2 ⟨[b, 1, 28, 28], d⟩ = Except.ok ⟨[b, 784], d⟩ := by
  have hnumel : Tensor.numel ⟨[b, 1, 28, 28], d⟩ = b * 784 := by
    simp [Tensor.numel]
  have hb0 : ¬ b = 0 := by omega
  have hmod : Tensor.numel ⟨[b, 1, 28, 28], d⟩ % b = 0 := by
    rw [hnumel]
    exact Nat.mul_mod_right b 784
  have hdiv : Tensor.numel ⟨[b, 1, 28, 28], d⟩ / b = 784 := by
    rw [hnumel]
    exact Nat.mul_div_cancel_left 784 (by omega)
  simp [Tensor.view2, hb0, hmod, hdiv]

theorem linear_apply_batch (l : Linear) (b k : Nat) (d : List ℚ) (hk : k = l.in_features) :
    l.apply ⟨[b, k], d⟩ = Except.ok ⟨[b, l.out_features], ((chunkRows d b k).map l.applyRow).flatten⟩ := by
  simp [Linear.apply, hk]

/-- The normal form of `Backbone.forward` on an input of shape
`(b, 1, 28, 28)`: the result is `.ok` and has shape `(b, 10)`. -/
theorem backbone_forward_batch (hidden_dim : Nat) (w1 : List (List ℚ)) (b1 : List ℚ)
    (w2 : List (List ℚ)) (b2 : List ℚ) (b : Nat) (d : List ℚ) (hb : 1 ≤ b) :
    (Backbone.init hidden_dim w1 b1 w2 b2).forward ⟨[b, 1, 28, 28], d⟩ =
      Except.ok
        (Tensor.relu ⟨[b, 10],
          ((chunkRows (Tensor.relu ⟨[b, hidden_dim],
              ((chunkRows d b 784).map (Linear.mk (28 * 28) hidden_dim w1 b1).applyRow).flatten⟩).data
            b hidden_dim).map (Linear.mk hidden_dim 10 w2 b2).applyRow).flatten⟩) := by
  have h1 := view2_batch b d hb
  have h2 := linear_apply_batch (Linear.mk (28 * 28) hidden_dim w1 b1) b 784 d (by norm_num)
  simp only [Backbone.forward, Backbone.init, h1, h2]
  have h3 := linear_apply_batch (Linear.mk hidden_dim 10 w2 b2) b hidden_dim
    (Tensor.relu ⟨[b, hidden_dim],
      ((chunkRows d b 784).map (Linear.mk (28 * 28) hidden_dim w1 b1).applyRow).flatten⟩).data rfl
  simp only [relu_shape] at h3
  rw [show (Tensor.relu ⟨[b, hidden_dim],
        ((chunkRows d b 784).map (Linear.mk (28 * 28) hidden_dim w1 b1).applyRow).flatten⟩) =
      ⟨[b, hidden_dim], (Tensor.relu ⟨[b, hidden_dim],
        ((chunkRows d b 784).map (Linear.mk (28 * 28) hidden_dim w1 b1).applyRow).flatten⟩).data⟩
    from rfl, h3]

/-- Claim C5: `LitClassifier.forward` (which delegates to
`Backbone.forward`) maps any input of shape `(b, 1, 28, 28)`, `b ≥ 1`,
to an output of shape `(b, 10)`. -/
theorem forward_output_shape (hidden_dim : Nat) (w1 : List (List ℚ)) (b1 : List ℚ)
    (w2 : List (List ℚ)) (b2 : List ℚ) (lr : ℚ) (b : Nat) (x : Tensor)
    (hb : 1 ≤ b) (hx : x.shape = [b, 1, 28, 28]) :
    ∃ y, (LitClassifier.init (Backbone.init hidden_dim w1 b1 w2 b2) lr).forward x = Except.ok y ∧
      y.shape = [b, 10] := by
  rcases x with ⟨sh, d⟩
  obtain rfl : sh = [b, 1, 28, 28] := hx
  exact ⟨_, backbone_forward_batch hidden_dim w1 b1 w2 b2 b d hb, rfl⟩

/-- Witness for C5: the all-zero classifier on the all-zero
`(1, 1, 28, 28)` input produces a `(1, 10)` output. -/
theorem forward_output_shape_witness :
    ∃ y, zeroClassifier.forward zeroInput = Except.ok y ∧ y.shape = [1, 10] :=
  forward_output_shape 1 [List.replicate 784 0] [0] (List.replicate 10 [0])
    (List.replicate 10 0) (1 / 10000) 1 zeroInput (by decide) rfl

/-! ## Row lengths and non-negativity of the cross-entropy loss -/

theorem chunkRows_length (xs : List ℚ) (b k : Nat) : (chunkRows xs b k).length = b := by
  induction b generalizing xs with
  | zero => rfl
  | succ b ih => simp [chunkRows, ih]

theorem chunkRows_row_length (b k : Nat) :
    ∀ xs : List ℚ, xs.length = b * k → ∀ r ∈ chunkRows xs b k, r.length = k := by
  induction b with
  | zero => intro xs _ r hr; simp [chunkRows] at hr
  | succ b ih =>
    intro xs hxs r hr
    rcases List.mem_cons.mp hr with rfl | hr
    · simp only [List.length_take]
      have hk : k ≤ xs.length := by
        rw [hxs, Nat.succ_mul]
        omega
      omega
    · refine ih (xs.drop k) ?_ r hr
      rw [List.length_drop, hxs, Nat.succ_mul]
      omega

theorem applyRow_length (l : Linear) (row : List ℚ)
    (hw : l.weight.length = l.out_features) (hb : l.bias.length = l.out_features) :
    (l.applyRow row).length = l.out_features := by
  simp [Linear.applyRow, hw, hb]

theorem flatten_map_length {α β : Type} (rs : List α) (f : α → List β) (L : Nat)
    (h : ∀ r ∈ rs, (f r).length = L) : ((rs.map f).flatten).length = rs.length * L := by
  induction rs with
  | nil => simp
  | cons a rs ih =>
    simp only [List.map_cons, List.flatten_cons, List.length_append, List.length_cons,
      h a (List.mem_cons_self a rs), ih fun r hr => h r (List.mem_cons_of_mem a hr)]
    ring

theorem cross_entropy_nonneg (input : List (List ℝ)) (target : List Nat)
    (h : ∀ p ∈ input.zip target, p.2 < p.1.length) :
    0 ≤ cross_entropy input target := by
  unfold cross_entropy
  apply div_nonneg _ (Nat.cast_nonneg _)
  apply List.sum_nonneg
  intro x hx
  obtain ⟨p, hp, rfl⟩ := List.mem_map.mp hx
  have hlt : p.2 < p.1.length := h p hp
  have hmem : p.1.getD p.2 0 ∈ p.1 := by
    rw [List.getD_eq_getElem p.1 0 hlt]
    exact List.getElem_mem hlt
  have hexp : Real.exp (p.1.getD p.2 0) ≤ (p.1.map Real.exp).sum :=
    List.single_le_sum (fun y hy => by
        obtain ⟨z, _, rfl⟩ := List.mem_map.mp hy
        exact le_of_lt (Real.exp_pos z)) _
      (List.mem_map_of_mem Real.exp hmem)
  have hpos : 0 < (p.1.map Real.exp).sum := lt_of_lt_of_le (Real.exp_pos _) hexp
  have hlog : p.1.getD p.2 0 ≤ Real.log ((p.1.map Real.exp).sum) :=
    (Real.le_log_iff_exp_le hpos).mpr hexp
  linarith

/-! ## Step-function behaviour (claims C6, C7, C8) -/

theorem zeroClassifier_forward :
    zeroClassifier.forward zeroInput = Except.ok zeroForwardOutput :=
  backbone_forward_batch 1 [List.replicate 784 0] [0] (List.replicate 10 [0])
    (List.replicate 10 0) 1 (List.replicate 784 0) (by decide)

/-- Claim C6 (amended): whenever the forward pass succeeds, the
`LitClassifier` step functions behave as follows — `training_step`
returns the scalar cross-entropy loss; `validation_step` and `test_step`
compute and log the scalar loss (`valid_loss` / `test_loss`) but return
`None`; `predict_step` returns the tensor of predictions. -/
theorem step_functions_phase_outputs (m : LitClassifier) (logs : List LogEntry)
    (x : Tensor) (y : List Nat) (i : Nat) (y_hat : Tensor)
    (hfwd : m.forward x = Except.ok y_hat) :
    m.training_step logs (x, y) i =
      Except.ok (.retLoss (cross_entropy y_hat.toRealRows y), m,
        logs ++ [("train_loss", cross_entropy y_hat.toRealRows y)]) ∧
    m.validation_step logs (x, y) i =
      Except.ok (.retNone, m, logs ++ [("valid_loss", cross_entropy y_hat.toRealRows y)]) ∧
    m.test_step logs (x, y) i =
      Except.ok (.retNone, m, logs ++ [("test_loss", cross_entropy y_hat.toRealRows y)]) ∧
    m.predict_step logs (x, y) i = Except.ok (.retTensor y_hat, m, logs) := by
  refine ⟨?_, ?_, ?_, ?_⟩ <;>
    simp [LitClassifier.training_step, LitClassifier.validation_step, LitClassifier.test_step,
      LitClassifier.predict_step, hfwd]

/-- Witness for C6 at the concrete zero classifier and zero input. -/
theorem step_functions_phase_outputs_witness :
    zeroClassifier.training_step [] (zeroInput, [0]) 0 =
      Except.ok (.retLoss (cross_entropy zeroForwardOutput.toRealRows [0]), zeroClassifier,
        [("train_loss", cross_entropy zeroForwardOutput.toRealRows [0])]) ∧
    zeroClassifier.validation_step [] (zeroInput, [0]) 0 =
      Except.ok (.retNone, zeroClassifier,
        [("valid_loss", cross_entropy zeroForwardOutput.toRealRows [0])]) ∧
    zeroClassifier.test_step [] (zeroInput, [0]) 0 =
      Except.ok (.retNone, zeroClassifier,
        [("test_loss", cross_entropy zeroForwardOutput.toRealRows [0])]) ∧
    zeroClassifier.predict_step [] (zeroInput, [0]) 0 =
      Except.ok (.retTensor zeroForwardOutput, zeroClassifier, []) := by
  have h := step_functions_phase_outputs zeroClassifier [] zeroInput [0] 0 zeroForwardOutput
    zeroClassifier_forward
  simpa using h

/-- Counterexample for C6 as frozen: the claim says the validate-phase
step function produces a scalar loss, but `LitClassifier.validation_step`
returns `None` (its body has no `return`) — here evaluated on a concrete
module and batch. -/
theorem validation_step_returns_none :
    (zeroClassifier.validation_step [] (zeroInput, [0]) 0).toOption.map Prod.fst =
      some StepReturn.retNone ∧
    ¬ ∃ v : ℝ, (zeroClassifier.validation_step [] (zeroInput, [0]) 0).toOption.map Prod.fst =
      some (StepReturn.retLoss v) := by
  have hv : (zeroClassifier.validation_step [] (zeroInput, [0]) 0).toOption.map Prod.fst =
      some StepReturn.retNone := by
    simp [LitClassifier.validation_step, zeroClassifier_forward, Except.toOption]
  refine ⟨hv, ?_⟩
  rintro ⟨v, hcontra⟩
  rw [hv] at hcontra
  simp at hcontra

/-- Each row of the forward pass's output (after the real cast) has
exactly 10 entries, provided `l2`'s weight and bias have 10 rows. -/
theorem backbone_output_rows_length (hidden_dim : Nat) (w1 : List (List ℚ)) (b1 : List ℚ)
    (w2 : List (List ℚ)) (b2 : List ℚ) (b : Nat) (d : List ℚ)
    (hw2 : w2.length = 10) (hbias2 : b2.length = 10) :
    ∀ r ∈ (Tensor.relu ⟨[b, 10],
        ((chunkRows (Tensor.relu ⟨[b, hidden_dim],
            ((chunkRows d b 784).map (Linear.mk (28 * 28) hidden_dim w1 b1).applyRow).flatten⟩).data
          b hidden_dim).map (Linear.mk hidden_dim 10 w2 b2).applyRow).flatten⟩).toRealRows,
      r.length = 10 := by
  intro r hr
  obtain ⟨r0, hr0, rfl⟩ := List.mem_map.mp hr
  rw [List.length_map]
  set rows0 := chunkRows (Tensor.relu ⟨[b, hidden_dim],
    ((chunkRows d b 784).map (Linear.mk (28 * 28) hidden_dim w1 b1).applyRow).flatten⟩).data b hidden_dim
  have hdata : ((rows0.map (Linear.mk hidden_dim 10 w2 b2).applyRow).flatten).length = b * 10 := by
    rw [flatten_map_length rows0 _ 10 (fun row _ => applyRow_length _ row hw2 hbias2)]
    rw [chunkRows_length]
  have hrows : r0 ∈ chunkRows (((rows0.map (Linear.mk hidden_dim 10 w2 b2).applyRow).flatten).map
      (fun q => max q 0)) b 10 := by
    simpa [Tensor.rows, Tensor.relu] using hr0
  exact chunkRows_row_length b 10 _ (by rw [List.length_map, hdata]) r0 hrows

/-- Claim C7 (amended): the train-phase step functions that return a
loss return a non-negative one.  First conjunct: for any well-formed
batch (input of shape `(b, 1, 28, 28)` with `b ≥ 1`, labels below 10,
second linear layer of 10 rows), `LitClassifier.training_step` returns
the scalar loss `v` with `0 ≤ v`, logging it as `train_loss`.  Second
conjunct: `ModelToProfile`'s automatic-optimization training step
likewise returns a non-negative scalar loss whenever the backbone model
succeeds and the labels index its output rows.  (The claim fails for the
manual-optimization step, which returns `None`; see the
counterexample.) -/
theorem training_step_nonneg_loss (hidden_dim : Nat) (w1 : List (List ℚ)) (b1 : List ℚ)
    (w2 : List (List ℚ)) (b2 : List ℚ) (lr : ℚ) (logs : List LogEntry)
    (b : Nat) (x : Tensor) (y : List Nat) (i : Nat)
    (hb : 1 ≤ b) (hx : x.shape = [b, 1, 28, 28])
    (hw2 : w2.length = 10) (hbias2 : b2.length = 10) (hy : ∀ t ∈ y, t < 10) :
    (∃ v, (LitClassifier.init (Backbone.init hidden_dim w1 b1 w2 b2) lr).training_step
        logs (x, y) i =
        Except.ok (.retLoss v, LitClassifier.init (Backbone.init hidden_dim w1 b1 w2 b2) lr,
          logs ++ [("train_loss", v)]) ∧ 0 ≤ v) ∧
    (∀ (mp : ModelToProfile) (o : Tensor) (labels : List Nat) (logs2 : List LogEntry)
        (xb : Tensor) (j : Nat),
      mp.modelFn mp.params xb = Except.ok o →
      (∀ p ∈ o.toRealRows.zip labels, p.2 < p.1.length) →
      ∃ v, mp.automatic_optimization_training_step logs2 (xb, labels) j =
        Except.ok (.retLoss v, mp, logs2 ++ [("train_loss", v)]) ∧ 0 ≤ v) := by
  constructor
  · rcases x with ⟨sh, d⟩
    obtain rfl : sh = [b, 1, 28, 28] := hx
    obtain ⟨Y, hfwd, hYrows⟩ :
        ∃ Y, (Backbone.init hidden_dim w1 b1 w2 b2).forward ⟨[b, 1, 28, 28], d⟩ =
            Except.ok Y ∧ ∀ r ∈ Y.toRealRows, r.length = 10 :=
      ⟨_, backbone_forward_batch hidden_dim w1 b1 w2 b2 b d hb,
        backbone_output_rows_length hidden_dim w1 b1 w2 b2 b d hw2 hbias2⟩
    refine ⟨cross_entropy Y.toRealRows y, ?_, ?_⟩
    · simp only [LitClassifier.training_step, LitClassifier.forward, LitClassifier.init]
      rw [hfwd]
    · apply cross_entropy_nonneg
      intro p hp
      obtain ⟨h1, h2⟩ := List.of_mem_zip hp
      rw [hYrows p.1 h1]
      exact hy p.2 h2
  · intro mp o labels logs2 xb j hmf hrows
    refine ⟨cross_entropy o.toRealRows labels, ?_, ?_⟩
    · simp [ModelToProfile.automatic_optimization_training_step, hmf]
    · exact cross_entropy_nonneg o.toRealRows labels hrows

/-- Witness for C7 at the zero classifier (and a profiler model whose
abstract backbone returns a `(1, 10)` zero tensor). -/
theorem training_step_nonneg_loss_witness :
    (∃ v, (LitClassifier.init
        (Backbone.init 1 [List.replicate 784 0] [0] (List.replicate 10 [0])
          (List.replicate 10 0)) (1 / 10000)).training_step [] (zeroInput, [0]) 0 =
        Except.ok (.retLoss v, LitClassifier.init
          (Backbone.init 1 [List.replicate 784 0] [0] (List.replicate 10 [0])
            (List.replicate 10 0)) (1 / 10000),
          [] ++ [("train_loss", v)]) ∧ 0 ≤ v) ∧
    (∀ (mp : ModelToProfile) (o : Tensor) (labels : List Nat) (logs2 : List LogEntry)
        (xb : Tensor) (j : Nat),
      mp.modelFn mp.params xb = Except.ok o →
      (∀ p ∈ o.toRealRows.zip labels, p.2 < p.1.length) →
      ∃ v, mp.automatic_optimization_training_step logs2 (xb, labels) j =
        Except.ok (.retLoss v, mp, logs2 ++ [("train_loss", v)]) ∧ 0 ≤ v) :=
  training_step_nonneg_loss 1 [List.replicate 784 0] [0] (List.replicate 10 [0])
    (List.replicate 10 0) (1 / 10000) [] 1 zeroInput [0] 0 (by decide) rfl (by decide)
    (by decide) (by decide)

/-- Counterexample for C7 as frozen: the claim covers the
manual-optimization training step, but that step's body has no `return`:
on a concrete profiler model and batch the train-phase step function
(dispatched with `automatic_optimization = False`) returns `None`, not a
scalar loss. -/
theorem manual_training_step_returns_none :
    (manualProfileModel.training_step id [] (⟨[1, 10], List.replicate 10 0⟩, [0]) 0).toOption.map
      Prod.fst = some StepReturn.retNone ∧
    ¬ ∃ v : ℝ, (manualProfileModel.training_step id [] (⟨[1, 10], List.replicate 10 0⟩, [0])
      0).toOption.map Prod.fst = some (StepReturn.retLoss v) := by
  have hv : (manualProfileModel.training_step id [] (⟨[1, 10], List.replicate 10 0⟩, [0])
      0).toOption.map Prod.fst = some StepReturn.retNone := by
    simp [ModelToProfile.training_step, ModelToProfile.manual_optimization_training_step,
      manualProfileModel, Except.toOption]
  refine ⟨hv, ?_⟩
  rintro ⟨v, hcontra⟩
  rw [hv] at hcontra
  simp at hcontra

/-- Claim C8: the validate-, test- and predict-phase step functions of
both modules never change the module (in particular its parameters), and
for every phase of both modules the `self.log` side effect is purely
observational: running a step against any metric sink yields exactly the
result of running it against an empty sink, with the emitted entries
appended — so neither the returned value nor the parameter state depends
on the logging sink. -/
theorem steps_preserve_params_and_logging_is_observational (m : LitClassifier)
    (mp : ModelToProfile) (opt : List ℝ → List ℝ) (logs : List LogEntry)
    (batch : Tensor × List Nat) (i : Nat) :
    (∀ r, m.validation_step logs batch i = Except.ok r → r.2.1 = m) ∧
    (∀ r, m.test_step logs batch i = Except.ok r → r.2.1 = m) ∧
    (∀ r, m.predict_step logs batch i = Except.ok r → r.2.1 = m) ∧
    (∀ r, mp.validation_step logs batch i = Except.ok r → r.2.1 = mp) ∧
    (∀ r, mp.predict_step logs batch i = Except.ok r → r.2.1 = mp) ∧
    m.training_step logs batch i =
      (m.training_step [] batch i).map (fun r => (r.1, r.2.1, logs ++ r.2.2)) ∧
    m.validation_step logs batch i =
      (m.validation_step [] batch i).map (fun r => (r.1, r.2.1, logs ++ r.2.2)) ∧
    m.test_step logs batch i =
      (m.test_step [] batch i).map (fun r => (r.1, r.2.1, logs ++ r.2.2)) ∧
    m.predict_step logs batch i =
      (m.predict_step [] batch i).map (fun r => (r.1, r.2.1, logs ++ r.2.2)) ∧
    mp.training_step opt logs batch i =
      (mp.training_step opt [] batch i).map (fun r => (r.1, r.2.1, logs ++ r.2.2)) ∧
    mp.validation_step logs batch i =
      (mp.validation_step [] batch i).map (fun r => (r.1, r.2.1, logs ++ r.2.2)) ∧
    mp.predict_step logs batch i =
      (mp.predict_step [] batch i).map (fun r => (r.1, r.2.1, logs ++ r.2.2)) := by
  obtain ⟨x, y⟩ := batch
  refine ⟨?_, ?_, ?_, ?_, ?_, ?_, ?_, ?_, ?_, ?_, ?_, ?_⟩
  · intro r h
    cases hf : m.forward x with
    | error e => simp [LitClassifier.validation_step, hf] at h
    | ok yh =>
      simp [LitClassifier.validation_step, hf] at h
      subst h
      rfl
  · intro r h
    cases hf : m.forward x with
    | error e => simp [LitClassifier.test_step, hf] at h
    | ok yh =>
      simp [LitClassifier.test_step, hf] at h
      subst h
      rfl
  · intro r h
    cases hf : m.forward x with
    | error e => simp [LitClassifier.predict_step, hf] at h
    | ok yh =>
      simp [LitClassifier.predict_step, hf] at h
      subst h
      rfl
  · intro r h
    cases hg : mp.modelFn mp.params x with
    | error e => simp [ModelToProfile.validation_step, hg] at h
    | ok o =>
      simp [ModelToProfile.validation_step, hg] at h
      subst h
      rfl
  · intro r h
    cases hg : mp.modelFn mp.params x with
    | error e => simp [ModelToProfile.predict_step, hg] at h
    | ok o =>
      simp [ModelToProfile.predict_step, hg] at h
      subst h
      rfl
  · cases hf : m.forward x <;> simp [LitClassifier.training_step, hf, Except.map]
  · cases hf : m.forward x <;> simp [LitClassifier.validation_step, hf, Except.map]
  · cases hf : m.forward x <;> simp [LitClassifier.test_step, hf, Except.map]
  · cases hf : m.forward x <;> simp [LitClassifier.predict_step, hf, Except.map]
  · cases ha : mp.automatic_optimization <;> cases hg : mp.modelFn mp.params x <;>
      simp [ModelToProfile.training_step, ha,
        ModelToProfile.automatic_optimization_training_step,
        ModelToProfile.manual_optimization_training_step, hg, Except.map]
  · cases hg : mp.modelFn mp.params x <;> simp [ModelToProfile.validation_step, hg, Except.map]
  · cases hg : mp.modelFn mp.params x <;> simp [ModelToProfile.predict_step, hg, Except.map]

/-- Witness for C8 at the concrete zero classifier, profiler model and
zero batch. -/
theorem steps_preserve_params_and_logging_is_observational_witness :
    (∀ r, zeroClassifier.validation_step [("a", 1)] (zeroInput, [0]) 0 = Except.ok r →
      r.2.1 = zeroClassifier) ∧
    (∀ r, zeroClassifier.test_step [("a", 1)] (zeroInput, [0]) 0 = Except.ok r →
      r.2.1 = zeroClassifier) ∧
    (∀ r, zeroClassifier.predict_step [("a", 1)] (zeroInput, [0]) 0 = Except.ok r →
      r.2.1 = zeroClassifier) ∧
    (∀ r, manualProfileModel.validation_step [("a", 1)] (zeroInput, [0]) 0 = Except.ok r →
      r.2.1 = manualProfileModel) ∧
    (∀ r, manualProfileModel.predict_step [("a", 1)] (zeroInput, [0]) 0 = Except.ok r →
      r.2.1 = manualProfileModel) ∧
    zeroClassifier.training_step [("a", 1)] (zeroInput, [0]) 0 =
      (zeroClassifier.training_step [] (zeroInput, [0]) 0).map
        (fun r => (r.1, r.2.1, [("a", 1)] ++ r.2.2)) ∧
    zeroClassifier.validation_step [("a", 1)] (zeroInput, [0]) 0 =
      (zeroClassifier.validation_step [] (zeroInput, [0]) 0).map
        (fun r => (r.1, r.2.1, [("a", 1)] ++ r.2.2)) ∧
    zeroClassifier.test_step [("a", 1)] (zeroInput, [0]) 0 =
      (zeroClassifier.test_step [] (zeroInput, [0]) 0).map
        (fun r => (r.1, r.2.1, [("a", 1)] ++ r.2.2)) ∧
    zeroClassifier.predict_step [("a", 1)] (zeroInput, [0]) 0 =
      (zeroClassifier.predict_step [] (zeroInput, [0]) 0).map
        (fun r => (r.1, r.2.1, [("a", 1)] ++ r.2.2)) ∧
    manualProfileModel.training_step id [("a", 1)] (zeroInput, [0]) 0 =
      (manualProfileModel.training_step id [] (zeroInput, [0]) 0).map
        (fun r => (r.1, r.2.1, [("a", 1)] ++ r.2.2)) ∧
    manualProfileModel.validation_step [("a", 1)] (zeroInput, [0]) 0 =
      (manualProfileModel.validation_step [] (zeroInput, [0]) 0).map
        (fun r => (r.1, r.2.1, [("a", 1)] ++ r.2.2)) ∧
    manualProfileModel.predict_step [("a", 1)] (zeroInput, [0]) 0 =
      (manualProfileModel.predict_step [] (zeroInput, [0]) 0).map
        (fun r => (r.1, r.2.1, [("a", 1)] ++ r.2.2)) :=
  steps_preserve_params_and_logging_is_observational zeroClassifier manualProfileModel id
    [("a", 1)] (zeroInput, [0]) 0

end MLApp
